import Mathlib

/-!
Shallow embedding of the job-orchestration core of the repository:
`server/tasks.py` (TaskManager), `server/storage.py` (FileStorage) and the
HTTP-facing glue in `api_service.py` that the spec treats as the collaborator
layer.  Python dicts keyed by `uuid.uuid4().hex` identifiers are embedded as
association lists keyed by the underlying 128-bit integer (`.hex` is an
injective rendering of that integer, so nothing is lost); byte strings are
embedded as `List Nat`; paths are embedded as the strings the code builds;
disk state, where an operation consults it, is an explicit list of the paths
that currently exist; an operation that can raise returns `Except`.
-/

/-- Model of Python `uuid.uuid4()` (CPython `uuid.py`): 128 random bits are
drawn, then the 4 version bits (bits 76-79) are forced to `0100` and the two
variant bits (bits 62-63) are forced to `10`.  Writing `x` for the 128 raw
random bits, the bit fields 80-127 (`x / 2 ^ 80`), 64-75 (`x / 2 ^ 64 % 2 ^ 12`)
and 0-61 (`x % 2 ^ 62`) are kept and the two forced fields contribute
`4 * 2 ^ 76` and `2 * 2 ^ 62`. -/
def uuid4 (r : Nat) : Nat :=
  r % 2 ^ 128 / 2 ^ 80 * 2 ^ 80 + 4 * 2 ^ 76 +
    r % 2 ^ 128 / 2 ^ 64 % 2 ^ 12 * 2 ^ 64 + 2 * 2 ^ 62 + r % 2 ^ 128 % 2 ^ 62

/-- The 122 kept random bits of a raw 128-bit draw, packed into one number:
bits 80-127 land at 74, bits 64-75 land at 62, bits 0-61 stay. -/
def unpackId (r : Nat) : Nat :=
  r % 2 ^ 128 / 2 ^ 80 * 2 ^ 74 + r % 2 ^ 128 / 2 ^ 64 % 2 ^ 12 * 2 ^ 62 + r % 2 ^ 128 % 2 ^ 62

/-- Rebuild a UUID value from its 122 packed random bits, inserting the forced
version nibble `4` at bit 76 and variant bits `10` at bit 62. -/
def assembleId (k : Nat) : Nat :=
  k / 2 ^ 74 * 2 ^ 80 + 4 * 2 ^ 76 + k / 2 ^ 62 % 2 ^ 12 * 2 ^ 64 + 2 * 2 ^ 62 + k % 2 ^ 62

/-- Spread 122 packed random bits back over a raw 128-bit draw (with the
to-be-forced fields zero). -/
def packRaw (k : Nat) : Nat :=
  k / 2 ^ 74 * 2 ^ 80 + k / 2 ^ 62 % 2 ^ 12 * 2 ^ 64 + k % 2 ^ 62

/-- The set of identifier values `uuid4` can produce over all 2 ^ 128
equiprobable raw draws. -/
def uuidSpace : Finset Nat := Finset.image uuid4 (Finset.range (2 ^ 128))

/-- Python dict read `m.get(k)` on an insertion-ordered dict embedded as an
association list. -/
def dictGet {α : Type} (m : List (Nat × α)) (k : Nat) : Option α :=
  match m with
  | [] => none
  | p :: t => if p.1 = k then some p.2 else dictGet t k

/-- Python dict assignment `m[k] = v` on an insertion-ordered dict: overwrite
in place when the key is present, append otherwise. -/
def dictInsert {α : Type} (m : List (Nat × α)) (k : Nat) (v : α) : List (Nat × α) :=
  match m with
  | [] => [(k, v)]
  | p :: t => if p.1 = k then (k, v) :: t else p :: dictInsert t k v

/-- Python `if k in m: m[k].update(...)` specialised to a record-updating
function: rewrite the entry when the key is present, leave the dict unchanged
otherwise (mirrors `TaskManager._update`, tasks.py lines 33-36). -/
def dictUpdate {α : Type} (m : List (Nat × α)) (k : Nat) (f : α → α) : List (Nat × α) :=
  match m with
  | [] => []
  | p :: t => if p.1 = k then (k, f p.2) :: t else p :: dictUpdate t k f

/-- The four task states of `TaskStatus` (tasks.py lines 11-15). -/
inductive TaskStatus
  | pending
  | running
  | success
  | failed
deriving DecidableEq, Repr

/-- The result dict the job callable returns,
`{"ok": bool, "error": str|None, "artifacts": dict}`; `error` and `artifacts`
are `Option` because `_run` reads them with `dict.get` defaults. -/
structure JobResult where
  ok : Bool
  error : Option String
  artifacts : Option (List (String × String))
deriving DecidableEq, Repr

/-- A task record as built in `TaskManager.create_task` (tasks.py lines
46-53); `id` is the 128-bit value behind `uuid.uuid4().hex`. -/
structure TaskRecord where
  id : Nat
  status : TaskStatus
  progress : Nat
  dir : String
  error : Option String
  artifacts : List (String × String)
deriving DecidableEq, Repr

/-- The in-memory `TaskManager._tasks` dict. -/
def TaskMap : Type := List (Nat × TaskRecord)

/-- Default of config `RESULTS_DIR` (config.py line 12). -/
def resultsBase : String := "data/results"

/-- The per-task output directory `RESULTS_DIR / task_id` (tasks.py line 44). -/
def taskDirOf (tid : Nat) : String := resultsBase ++ "/" ++ Nat.repr tid

/-- The fresh record inserted by `create_task` (tasks.py lines 46-53). -/
def initialRecord (tid : Nat) : TaskRecord :=
  { id := tid, status := TaskStatus.pending, progress := 0, dir := taskDirOf tid,
    error := none, artifacts := [] }

/-- The `_update(..., status=RUNNING, progress=5)` checkpoint
(tasks.py line 58). -/
def setRunning (rec : TaskRecord) : TaskRecord :=
  { rec with status := TaskStatus.running, progress := 5 }

/-- The success transition of `_run` (tasks.py line 61). -/
def setSuccess (arts : List (String × String)) (rec : TaskRecord) : TaskRecord :=
  { rec with status := TaskStatus.success, progress := 100, artifacts := arts }

/-- The failure transition of `_run` (tasks.py lines 63 and 65). -/
def setFailed (msg : String) (rec : TaskRecord) : TaskRecord :=
  { rec with status := TaskStatus.failed, progress := 100, error := some msg }

/-- What the job invocation does: returns a result dict, or raises with a
message (the `Except.error` branch embeds a raised exception `e`, recorded as
`str(e)`). -/
def JobOutcome : Type := Except String JobResult

/-- The terminal update `_run` applies after the job call (tasks.py lines
60-65): success with the returned artifacts when `result.get("ok")` is truthy,
otherwise failure with `result.get("error", "unknown error")`; a raised
exception is caught and recorded as failure with its description. -/
def terminalUpdate (outcome : JobOutcome) : TaskRecord → TaskRecord :=
  match outcome with
  | Except.ok result =>
      if result.ok then setSuccess (result.artifacts.getD [])
      else setFailed (result.error.getD "unknown error")
  | Except.error e => setFailed e

/-- The artifacts the success branch of `_run` records (tasks.py line 61):
`result.get("artifacts", {})`. -/
def successArtifacts (outcome : JobOutcome) : List (String × String) :=
  match outcome with
  | Except.ok result => result.artifacts.getD []
  | Except.error _ => []

/-- The status the record ends in for a given job outcome. -/
def terminalStatus (outcome : JobOutcome) : TaskStatus :=
  match outcome with
  | Except.ok result => if result.ok then TaskStatus.success else TaskStatus.failed
  | Except.error _ => TaskStatus.failed

/-- The two map states produced by the scheduled `_run` body (tasks.py lines
56-65): the running checkpoint, then the terminal update.  `_run` performs no
further update after the terminal one. -/
def runTask (m : TaskMap) (tid : Nat) (outcome : JobOutcome) : List TaskMap :=
  let m1 := dictUpdate m tid setRunning
  let m2 := dictUpdate m1 tid (terminalUpdate outcome)
  [m1, m2]

/-- `TaskManager.create_task` up to the thread launch (tasks.py lines 43-54):
generate the id, make the output directory — `dirOk` is whether `mkdir`
succeeds; on failure the exception propagates before the record exists — then
build and insert the pending record. -/
def create_task (m : TaskMap) (r : Nat) (dirOk : Bool) :
    Except String (TaskRecord × TaskMap) :=
  if dirOk then
    let tid := uuid4 r
    let record := initialRecord tid
    Except.ok (record, dictInsert m tid record)
  else
    Except.error "mkdir failed"

/-- A full submission: `create_task` followed by the scheduled `_run`
(tasks.py lines 38-68).  Returns every observable state of the task map in
order, plus whether the job body was ever invoked; when `mkdir` fails nothing
was inserted and no thread was started. -/
def submitPipeline (m : TaskMap) (r : Nat) (dirOk : Bool) (outcome : JobOutcome) :
    List TaskMap × Bool :=
  match create_task m r dirOk with
  | Except.ok (record, m0) => (m0 :: runTask m0 record.id outcome, true)
  | Except.error _ => ([m], false)

/-- The last observable task-map state of a successful submission. -/
def finalMap (m : TaskMap) (r : Nat) (outcome : JobOutcome) : TaskMap :=
  (submitPipeline m r true outcome).1.getLastD m

/-- The status of the submitted task as seen by `TaskManager.get` (tasks.py
lines 70-71) at each observable state of the map. -/
def observedStatuses (m : TaskMap) (r : Nat) (outcome : JobOutcome) :
    List (Option TaskStatus) :=
  (submitPipeline m r true outcome).1.map
    (fun mi => (dictGet mi (uuid4 r)).map (fun rec => rec.status))

/-- The transition relation of the task state machine
`pending -> running -> {success, failed}`. -/
def allowedStep : TaskStatus → TaskStatus → Bool
  | TaskStatus.pending, TaskStatus.running => true
  | TaskStatus.running, TaskStatus.success => true
  | TaskStatus.running, TaskStatus.failed => true
  | _, _ => false

/-- One access to the shared `_tasks` dict, tagged with whether it is a write
and whether it happens inside a `with self._lock` block.  This records the
static locking structure of tasks.py, which a reviewer can read off the
indentation of the source. -/
structure MapAccess where
  write : Bool
  underLock : Bool
deriving DecidableEq, Repr

/-- Accesses of `TaskManager._update` (tasks.py lines 33-36): the membership
test and the record write, both inside `with self._lock`. -/
def updateAccesses : List MapAccess :=
  [{ write := false, underLock := true }, { write := true, underLock := true }]

/-- The record insertion `self._tasks[task_id] = record` (tasks.py line 54),
not inside any `with self._lock` block. -/
def createInsertAccesses : List MapAccess :=
  [{ write := true, underLock := false }]

/-- The read in `TaskManager.get` (tasks.py lines 70-71), outside the lock. -/
def getAccesses : List MapAccess :=
  [{ write := false, underLock := false }]

/-- The read in `TaskManager.list` (tasks.py lines 73-74), outside the lock. -/
def listAccesses : List MapAccess :=
  [{ write := false, underLock := false }]

/-- Every access any TaskManager operation makes to the `_tasks` dict. -/
def taskMapAccesses : List MapAccess :=
  updateAccesses ++ createInsertAccesses ++ getAccesses ++ listAccesses

/-- Errors the HTTP layer reports with a 4xx response. -/
inductive ApiError
  | missingFilename
  | unsupportedFormat
  | emptyContent
deriving DecidableEq, Repr

/-- Disk-level failure, fatal to the single request (taxonomy
`StorageIOError`). -/
inductive StorageError
  | ioError
deriving DecidableEq, Repr

/-- Python `str.lower` restricted to ASCII (the extensions compared against
are ASCII). -/
def asciiLower (c : Char) : Char :=
  if 'A' ≤ c ∧ c ≤ 'Z' then Char.ofNat (c.toNat + 32) else c

/-- Lowercase a string, character by character. -/
def strLower (s : String) : String := String.mk (s.data.map asciiLower)

/-- Python `Path(p).name`: the final path component (upload filenames are
plain names; trailing-slash normalisation is not needed for them). -/
def pathNameChars (cs : List Char) : List Char :=
  cs.foldl (fun acc c => if c = '/' then [] else acc ++ [c]) []

/-- Index of the last `.` in a component, counting from `i`. -/
def lastDotIndexFrom : List Char → Nat → Option Nat
  | [], _ => none
  | c :: cs, i =>
      match lastDotIndexFrom cs (i + 1) with
      | some j => some j
      | none => if c = '.' then some i else none

/-- Python `Path(p).suffix` (pathlib): with `name` the final component and
`i` the index of its last dot, return `name[i:]` when `0 < i < len(name) - 1`,
else the empty string. -/
def pathSuffix (p : String) : String :=
  let name := pathNameChars p.data
  match lastDotIndexFrom name 0 with
  | some i => if 0 < i ∧ i + 1 < name.length then String.mk (name.drop i) else ""
  | none => ""

/-- The extensions `upload_file` accepts (api_service.py line 236). -/
def allowedUploadExts : List String := [".pdf", ".jpg", ".jpeg", ".png"]

/-- `validate_file_upload` (api_service.py lines 115-150): reject a missing
filename, extract `Path(filename).suffix.lower()`, reject extensions outside
the allowed list, return the extension. -/
def validate_file_upload (filename : String) (allowed : List String) :
    Except ApiError String :=
  if filename = "" then Except.error ApiError.missingFilename
  else
    let ext := strLower (pathSuffix filename)
    if allowed.contains ext then Except.ok ext
    else Except.error ApiError.unsupportedFormat

/-- A stored-file metadata record as built by `FileStorage.save_upload`
(storage.py lines 39-45); `id` is the 128-bit value behind
`uuid.uuid4().hex`. -/
structure FileMeta where
  id : Nat
  filename : String
  stored_path : String
  dir : String
  size : Nat
deriving DecidableEq, Repr

/-- The in-memory `FileStorage._id_to_meta` dict. -/
def StorageIndex : Type := List (Nat × FileMeta)

/-- Default of config `STORAGE_DIR` (config.py line 9). -/
def storageBase : String := "data/storage"

/-- The per-file directory `STORAGE_DIR / file_id` (storage.py line 32). -/
def storageDirOf (fid : Nat) : String := storageBase ++ "/" ++ Nat.repr fid

/-- `FileStorage.save_upload` (storage.py lines 25-47): generate the id, make
the per-id directory, write `content` to `source<ext>` — `writeOk` is whether
the disk operations succeed; on failure the exception propagates — then record
and return the metadata.  There is no check on `content`; empty content is
written as a zero-byte file. -/
def save_upload (idx : StorageIndex) (r : Nat) (filename : String)
    (content : List Nat) (writeOk : Bool) :
    Except StorageError (FileMeta × StorageIndex) :=
  if writeOk then
    let fid := uuid4 r
    let ext := pathSuffix filename
    let sp := storageDirOf fid ++ "/source" ++ ext
    let meta : FileMeta :=
      { id := fid, filename := filename, stored_path := sp,
        dir := storageDirOf fid, size := content.length }
    Except.ok (meta, dictInsert idx fid meta)
  else Except.error StorageError.ioError

/-- `FileStorage.list_files` (storage.py lines 49-54): the values of the
in-memory index, with no look at the disk. -/
def list_files (idx : StorageIndex) : List FileMeta := idx.map (fun p => p.2)

/-- `FileStorage.get_file_meta` (storage.py lines 56-58): the in-memory
record, with no look at the disk. -/
def get_file_meta (idx : StorageIndex) (fid : Nat) : Option FileMeta :=
  dictGet idx fid

/-- `FileStorage.get_file_path` (storage.py lines 60-66): look up the record,
then re-check `path.exists()` against the current disk state and return the
path only when it still exists. -/
def get_file_path (disk : List String) (idx : StorageIndex) (fid : Nat) :
    Option String :=
  match get_file_meta idx fid with
  | none => none
  | some meta =>
      if disk.contains meta.stored_path then some meta.stored_path else none

/-- The body of the `POST /files/upload` response (api_service.py lines
77-81). -/
structure UploadResponse where
  id : Nat
  filename : String
  size : Nat
deriving DecidableEq, Repr

/-- Errors of the upload endpoint. -/
inductive UploadError
  | badRequest (e : ApiError)
  | storage (e : StorageError)
deriving DecidableEq, Repr

/-- The `upload_file` endpoint (api_service.py lines 230-243): validate the
extension, reject empty content with a 400 before the store is touched, then
call `FileStorage.save_upload`. -/
def upload_file (idx : StorageIndex) (r : Nat) (filename : String)
    (content : List Nat) (writeOk : Bool) :
    Except UploadError (UploadResponse × StorageIndex) :=
  match validate_file_upload filename allowedUploadExts with
  | Except.error e => Except.error (UploadError.badRequest e)
  | Except.ok _ =>
      if content.isEmpty then Except.error (UploadError.badRequest ApiError.emptyContent)
      else
        match save_upload idx r filename content writeOk with
        | Except.error e => Except.error (UploadError.storage e)
        | Except.ok (meta, idx2) =>
            Except.ok ({ id := meta.id, filename := meta.filename, size := meta.size }, idx2)

/-- One row of the `GET /files` response (api_service.py lines 83-88 and
246-250). -/
structure FileMetaView where
  id : Nat
  filename : String
  stored_path : String
  size : Nat
deriving DecidableEq, Repr

/-- The `GET /files` endpoint (api_service.py lines 246-250): project every
in-memory record, with no look at the disk. -/
def listFilesEndpoint (idx : StorageIndex) : List FileMetaView :=
  (list_files idx).map
    (fun m => { id := m.id, filename := m.filename, stored_path := m.stored_path, size := m.size })

theorem dictGet_dictUpdate {α : Type} (m : List (Nat × α)) (k : Nat) (f : α → α) :
    dictGet (dictUpdate m k f) k = (dictGet m k).map f := by
  induction m with
  | nil => rfl
  | cons p t ih =>
    by_cases h : p.1 = k
    · simp [dictUpdate, dictGet, h]
    · simp [dictUpdate, dictGet, h, ih]

theorem dictGet_dictUpdate_ne {α : Type} (m : List (Nat × α)) (k k2 : Nat) (f : α → α)
    (h : k ≠ k2) : dictGet (dictUpdate m k2 f) k = dictGet m k := by
  induction m with
  | nil => rfl
  | cons p t ih =>
    by_cases h2 : p.1 = k2
    · simp [dictUpdate, dictGet, h2, Ne.symm h]
    · by_cases hk : p.1 = k
      · simp [dictUpdate, dictGet, h2, hk, h]
      · simp [dictUpdate, dictGet, h2, hk, ih]

theorem isSome_dictGet_dictUpdate {α : Type} (m : List (Nat × α)) (k k2 : Nat) (f : α → α) :
    (dictGet (dictUpdate m k2 f) k).isSome = (dictGet m k).isSome := by
  by_cases h : k = k2
  · subst h
    rw [dictGet_dictUpdate]
    cases dictGet m k <;> rfl
  · rw [dictGet_dictUpdate_ne m k k2 f h]

theorem dictGet_dictInsert {α : Type} (m : List (Nat × α)) (k : Nat) (v : α) :
    dictGet (dictInsert m k v) k = some v := by
  induction m with
  | nil => simp [dictInsert, dictGet]
  | cons p t ih =>
    by_cases h : p.1 = k
    · simp [dictInsert, dictGet, h]
    · simp [dictInsert, dictGet, h, ih]

theorem dictGet_dictInsert_ne {α : Type} (m : List (Nat × α)) (k k2 : Nat) (v : α)
    (h : k ≠ k2) : dictGet (dictInsert m k2 v) k = dictGet m k := by
  induction m with
  | nil => simp [dictInsert, dictGet, Ne.symm h]
  | cons p t ih =>
    by_cases h2 : p.1 = k2
    · simp [dictInsert, dictGet, h2, Ne.symm h]
    · by_cases hk : p.1 = k
      · simp [dictInsert, dictGet, h2, hk, h]
      · simp [dictInsert, dictGet, h2, hk, ih]

theorem isSome_dictGet_dictInsert {α : Type} (m : List (Nat × α)) (k k2 : Nat) (v : α)
    (h : (dictGet m k).isSome = true) :
    (dictGet (dictInsert m k2 v) k).isSome = true := by
  by_cases hk : k = k2
  · subst hk
    rw [dictGet_dictInsert]
    rfl
  · rw [dictGet_dictInsert_ne m k k2 v hk]
    exact h

theorem mem_values_of_dictGet {α : Type} (m : List (Nat × α)) (k : Nat) (v : α)
    (h : dictGet m k = some v) : v ∈ m.map (fun p => p.2) := by
  induction m with
  | nil => simp [dictGet] at h
  | cons p t ih =>
    by_cases hk : p.1 = k
    · simp [dictGet, hk] at h
      simp [h]
    · simp [dictGet, hk] at h
      simp [ih h]

theorem submitPipeline_ok (m : TaskMap) (r : Nat) (outcome : JobOutcome) :
    submitPipeline m r true outcome =
      ([dictInsert m (uuid4 r) (initialRecord (uuid4 r)),
        dictUpdate (dictInsert m (uuid4 r) (initialRecord (uuid4 r))) (uuid4 r) setRunning,
        dictUpdate (dictUpdate (dictInsert m (uuid4 r) (initialRecord (uuid4 r))) (uuid4 r)
          setRunning) (uuid4 r) (terminalUpdate outcome)], true) := rfl

theorem dictGet_finalMap (m : TaskMap) (r : Nat) (outcome : JobOutcome) :
    dictGet (finalMap m r outcome) (uuid4 r) =
      some (terminalUpdate outcome (setRunning (initialRecord (uuid4 r)))) := by
  unfold finalMap
  rw [submitPipeline_ok]
  simp [List.getLastD, dictGet_dictUpdate, dictGet_dictInsert]

theorem status_terminalUpdate (outcome : JobOutcome) (rec : TaskRecord) :
    (terminalUpdate outcome rec).status = terminalStatus outcome := by
  cases outcome with
  | ok res =>
      cases h : res.ok <;> simp [terminalUpdate, terminalStatus, h, setSuccess, setFailed]
  | error e => simp [terminalUpdate, terminalStatus, setFailed]

theorem terminalStatus_cases (outcome : JobOutcome) :
    terminalStatus outcome = TaskStatus.success ∨ terminalStatus outcome = TaskStatus.failed := by
  cases outcome with
  | ok res => cases h : res.ok <;> simp [terminalStatus, h]
  | error e => simp [terminalStatus]

/-- Claim C1: for every submitted job, a `get` performed at any observable
state after `create_task` returns is never absent, and the record's statuses
pass through exactly `pending`, `running`, then a terminal state — a chain of
the state machine `pending -> running -> {success, failed}` with no skipped
step and no regression; a terminal status has no outgoing transition and the
scheduled run makes no further update after recording it; and a present record
stays present under both mutating operations the manager has (record insertion
and `_update` — no deletion exists). -/
theorem c1_job_lifecycle (m : TaskMap) (r : Nat) (outcome : JobOutcome) :
    observedStatuses m r outcome =
      [some TaskStatus.pending, some TaskStatus.running, some (terminalStatus outcome)] ∧
    List.Chain' (fun a b => allowedStep a b = true)
      [TaskStatus.pending, TaskStatus.running, terminalStatus outcome] ∧
    (terminalStatus outcome = TaskStatus.success ∨ terminalStatus outcome = TaskStatus.failed) ∧
    (∀ s, allowedStep (terminalStatus outcome) s = false) ∧
    (∀ m2 : TaskMap, ∀ tid2 : Nat, ∀ rec2 : TaskRecord, ∀ f : TaskRecord → TaskRecord,
      (dictGet m2 (uuid4 r)).isSome = true →
      (dictGet (dictInsert m2 tid2 rec2) (uuid4 r)).isSome = true ∧
      (dictGet (dictUpdate m2 tid2 f) (uuid4 r)).isSome = true) := by
  refine ⟨?_, ?_, terminalStatus_cases outcome, ?_, ?_⟩
  · unfold observedStatuses
    rw [submitPipeline_ok]
    simp [dictGet_dictUpdate, dictGet_dictInsert, initialRecord, setRunning,
      status_terminalUpdate]
  · rcases terminalStatus_cases outcome with h | h <;> rw [h] <;>
      simp [List.chain'_cons, List.chain'_singleton, allowedStep]
  · rcases terminalStatus_cases outcome with h | h <;> rw [h] <;> intro s <;> cases s <;> rfl
  · intro m2 tid2 rec2 f h
    exact ⟨isSome_dictGet_dictInsert m2 (uuid4 r) tid2 rec2 h,
      by rw [isSome_dictGet_dictUpdate]; exact h⟩

/-- Claim C1 witness: the lifecycle theorem instantiated at a concrete
submission, with the preservation hypothesis discharged at a concrete map. -/
theorem c1_job_lifecycle_witness :
    observedStatuses [] 0 (Except.ok ⟨true, none, some [("manifest", "out.json")]⟩) =
      [some TaskStatus.pending, some TaskStatus.running, some TaskStatus.success] ∧
    (dictGet (dictInsert [(uuid4 0, initialRecord (uuid4 0))] 7 (initialRecord 7))
        (uuid4 0)).isSome = true := by
  have h := c1_job_lifecycle [] 0 (Except.ok ⟨true, none, some [("manifest", "out.json")]⟩)
  exact ⟨h.1, (h.2.2.2.2 [(uuid4 0, initialRecord (uuid4 0))] 7 (initialRecord 7) id
    (by rw [dictGet]; simp)).1⟩

/-- Claim C2: a job whose body returns `ok = true` with an artifact map ends
with a record whose status is `success`, whose progress is 100, and whose
artifacts are exactly the returned map. -/
theorem c2_success_record (m : TaskMap) (r : Nat) (res : JobResult)
    (arts : List (String × String)) (hok : res.ok = true)
    (harts : res.artifacts = some arts) :
    ∃ rec, dictGet (finalMap m r (Except.ok res)) (uuid4 r) = some rec ∧
      rec.status = TaskStatus.success ∧ rec.progress = 100 ∧
      rec.artifacts = arts ∧ rec.error = none := by
  refine ⟨_, dictGet_finalMap m r (Except.ok res), ?_, ?_, ?_, ?_⟩ <;>
    simp [terminalUpdate, hok, harts, setSuccess, setRunning, initialRecord]

/-- Claim C2 witness: the success theorem at a concrete job result. -/
theorem c2_success_record_witness :
    ∃ rec, dictGet (finalMap [] 0 (Except.ok ⟨true, none,
      some [("manifest", "out.json")]⟩)) (uuid4 0) = some rec ∧
      rec.status = TaskStatus.success ∧ rec.progress = 100 ∧
      rec.artifacts = [("manifest", "out.json")] ∧ rec.error = none :=
  c2_success_record [] 0 ⟨true, none, some [("manifest", "out.json")]⟩
    [("manifest", "out.json")] rfl rfl

/-- Claim C3: a job body that raises (modelled by the `Except.error` outcome)
is caught at the `_run` boundary: the record transitions through `running` to
`failed` with the fault's description in `error`, the pipeline itself returns
normally (the fault reaches no caller), and the record is not left in
`running`. -/
theorem c3_fault_converted_to_failed (m : TaskMap) (r : Nat) (e : String) :
    observedStatuses m r (Except.error e) =
      [some TaskStatus.pending, some TaskStatus.running, some TaskStatus.failed] ∧
    (∃ rec, dictGet (finalMap m r (Except.error e)) (uuid4 r) = some rec ∧
      rec.status = TaskStatus.failed ∧ rec.error = some e ∧ rec.progress = 100) := by
  constructor
  · unfold observedStatuses
    rw [submitPipeline_ok]
    simp [dictGet_dictUpdate, dictGet_dictInsert, initialRecord, setRunning,
      terminalUpdate, setFailed]
  · refine ⟨_, dictGet_finalMap m r (Except.error e), ?_, ?_, ?_⟩ <;>
      simp [terminalUpdate, setFailed, setRunning, initialRecord]

/-- Claim C7: when `mkdir` fails during submission, `create_task` raises
before anything is scheduled: the sequence of observable task-map states is
just the unchanged starting map, the job body is never invoked, and the call
reports the failure. -/
theorem c7_mkdir_failure_atomic (m : TaskMap) (r : Nat) (outcome : JobOutcome) :
    submitPipeline m r false outcome = ([m], false) ∧
    create_task m r false = Except.error "mkdir failed" :=
  ⟨rfl, rfl⟩

/-- Claim C8: at every observable state of a submission, the submitted job's
record keeps `error` and `artifacts` mutually exclusive in content: a
`success` record carries the success artifacts with `error` still `None`, a
`failed` record carries a present `error` with `artifacts` still empty, and a
`pending` or `running` record carries neither. -/
theorem c8_error_artifacts_exclusive (m : TaskMap) (r : Nat) (outcome : JobOutcome)
    (mi : TaskMap) (hmi : mi ∈ (submitPipeline m r true outcome).1)
    (rec : TaskRecord) (hrec : dictGet mi (uuid4 r) = some rec) :
    (rec.status = TaskStatus.success →
      rec.error = none ∧ rec.artifacts = successArtifacts outcome) ∧
    (rec.status = TaskStatus.failed → rec.error.isSome = true ∧ rec.artifacts = []) ∧
    ((rec.status = TaskStatus.pending ∨ rec.status = TaskStatus.running) →
      rec.error = none ∧ rec.artifacts = []) := by
  rw [submitPipeline_ok] at hmi
  simp only [List.mem_cons, List.not_mem_nil, or_false] at hmi
  rcases hmi with h | h | h
  · subst h
    rw [dictGet_dictInsert] at hrec
    injection hrec with h2
    subst h2
    simp [initialRecord]
  · subst h
    rw [dictGet_dictUpdate, dictGet_dictInsert] at hrec
    simp only [Option.map_some'] at hrec
    injection hrec with h2
    subst h2
    simp [setRunning, initialRecord]
  · subst h
    rw [dictGet_dictUpdate, dictGet_dictUpdate, dictGet_dictInsert] at hrec
    simp only [Option.map_some'] at hrec
    injection hrec with h2
    subst h2
    cases outcome with
    | ok res =>
        cases hok : res.ok with
        | true =>
            simp [terminalUpdate, hok, setSuccess, setRunning, initialRecord,
              successArtifacts]
        | false =>
            simp [terminalUpdate, hok, setFailed, setRunning, initialRecord]
    | error e => simp [terminalUpdate, setFailed, setRunning, initialRecord]

/-- Claim C8 witness: the exclusivity theorem at the terminal state of a
concrete failed submission. -/
theorem c8_error_artifacts_exclusive_witness :
    (terminalUpdate (Except.error "boom")
      (setRunning (initialRecord (uuid4 0)))).error.isSome = true ∧
    (terminalUpdate (Except.error "boom")
      (setRunning (initialRecord (uuid4 0)))).artifacts = [] := by
  have h := c8_error_artifacts_exclusive [] 0 (Except.error "boom")
    (dictUpdate (dictUpdate (dictInsert [] (uuid4 0) (initialRecord (uuid4 0))) (uuid4 0)
      setRunning) (uuid4 0) (terminalUpdate (Except.error "boom")))
    (by rw [submitPipeline_ok]; simp)
    (terminalUpdate (Except.error "boom") (setRunning (initialRecord (uuid4 0))))
    (by rw [dictGet_dictUpdate, dictGet_dictUpdate, dictGet_dictInsert]; rfl)
  exact h.2.1 rfl

/-- Claim C5 counterexample: it is not the case that every access to the task
map is performed under the mutual-exclusion lock — the initial record
insertion in `create_task` (tasks.py line 54) and the reads in `get` and
`list` (lines 70-74) happen outside every `with self._lock` block. -/
theorem c5_lock_discipline_counterexample :
    ¬ ∀ a ∈ taskMapAccesses, a.underLock = true := by decide

/-- Claim C5 (amended): only the membership test and write performed by
`_update` are under the lock; the initial record insertion in `create_task`
and the reads in `get` and `list` access the task map without acquiring it. -/
theorem c5_lock_discipline_amended :
    updateAccesses.all (fun a => a.underLock) = true ∧
    (createInsertAccesses ++ getAccesses ++ listAccesses).all
      (fun a => !a.underLock) = true := by decide

/-- Claim C4 counterexample: `FileStorage.save_upload` does not fail on empty
content — called with empty bytes (and working disk I/O) it stores a zero-byte
file and returns normally instead of rejecting the input. -/
theorem c4_save_accepts_empty_counterexample :
    (save_upload [] 0 "a.pdf" [] true).toOption.isSome = true := rfl

/-- Claim C4 (amended): the empty-content rejection lives in the upload
endpoint, not in the File Store: for every index, filename passing extension
validation, and disk behaviour, `upload_file` rejects empty content as invalid
input before `save_upload` is reached, while `save_upload` itself accepts
empty content and records size 0. -/
theorem c4_empty_rejected_at_endpoint (idx : StorageIndex) (r : Nat)
    (filename : String) (writeOk : Bool) (ext : String)
    (hval : validate_file_upload filename allowedUploadExts = Except.ok ext) :
    upload_file idx r filename [] writeOk =
      Except.error (UploadError.badRequest ApiError.emptyContent) ∧
    (∃ meta idx2, save_upload idx r filename [] true = Except.ok (meta, idx2) ∧
      meta.size = 0) := by
  constructor
  · unfold upload_file
    rw [hval]
    rfl
  · exact ⟨_, _, rfl, rfl⟩

/-- Claim C4 witness: the amended theorem at a concrete valid filename. -/
theorem c4_empty_rejected_at_endpoint_witness :
    upload_file [] 0 "a.pdf" [] true =
      Except.error (UploadError.badRequest ApiError.emptyContent) :=
  (c4_empty_rejected_at_endpoint [] 0 "a.pdf" true ".pdf" rfl).1

/-- Claim C6: `get_file_path` returns absent both when the identifier is
unknown and when the identifier is known but the recorded path no longer
exists on disk; any path it does return is the recorded path and exists on
disk at the moment of the call. -/
theorem c6_get_revalidates_disk (disk : List String) (idx : StorageIndex) (fid : Nat) :
    (get_file_meta idx fid = none → get_file_path disk idx fid = none) ∧
    (∀ meta, get_file_meta idx fid = some meta →
      disk.contains meta.stored_path = false → get_file_path disk idx fid = none) ∧
    (∀ p, get_file_path disk idx fid = some p →
      disk.contains p = true ∧
      ∃ meta, get_file_meta idx fid = some meta ∧ p = meta.stored_path) := by
  refine ⟨?_, ?_, ?_⟩
  · intro h
    simp [get_file_path, h]
  · intro meta hm hd
    have hd2 : meta.stored_path ∉ disk := by simpa using hd
    simp [get_file_path, hm, hd2]
  · intro p hp
    cases hm : get_file_meta idx fid with
    | none => simp [get_file_path, hm] at hp
    | some meta =>
        by_cases hc : meta.stored_path ∈ disk
        · simp [get_file_path, hm, hc] at hp
          subst hp
          exact ⟨by simpa using hc, meta, rfl, rfl⟩
        · simp [get_file_path, hm, hc] at hp

/-- Claim C6 witness: a known identifier whose recorded path is missing from
the disk is reported absent. -/
theorem c6_get_revalidates_disk_witness :
    get_file_path [] [(5,
      { id := 5, filename := "a.pdf", stored_path := "data/storage/5/source.pdf",
        dir := "data/storage/5", size := 3 })] 5 = none :=
  (c6_get_revalidates_disk [] [(5,
      { id := 5, filename := "a.pdf", stored_path := "data/storage/5/source.pdf",
        dir := "data/storage/5", size := 3 })] 5).2.1
    { id := 5, filename := "a.pdf", stored_path := "data/storage/5/source.pdf",
      dir := "data/storage/5", size := 3 }
    rfl rfl

/-- Claim C10: `list_files`, the `GET /files` endpoint projection and
`get_file_meta` do not re-validate disk existence — a stored record whose
backing file was removed out-of-band still appears, with its original
`stored_path` and `size`, while `get_file_path` for the same identifier
reports absent. -/
theorem c10_list_skips_revalidation (disk : List String) (idx : StorageIndex)
    (fid : Nat) (meta : FileMeta) (hm : get_file_meta idx fid = some meta)
    (hd : disk.contains meta.stored_path = false) :
    meta ∈ list_files idx ∧
    ({ id := meta.id, filename := meta.filename,
       stored_path := meta.stored_path, size := meta.size } : FileMetaView) ∈
      listFilesEndpoint idx ∧
    get_file_path disk idx fid = none := by
  have hv : meta ∈ list_files idx := mem_values_of_dictGet idx fid meta hm
  refine ⟨hv, ?_, ?_⟩
  · exact List.mem_map_of_mem _ hv
  · have hd2 : meta.stored_path ∉ disk := by simpa using hd
    simp [get_file_path, hm, hd2]

/-- Claim C10 witness: the theorem at a concrete one-entry index with an
empty disk. -/
theorem c10_list_skips_revalidation_witness :
    ({ id := 5, filename := "a.pdf", stored_path := "data/storage/5/source.pdf",
       dir := "data/storage/5", size := 3 } : FileMeta) ∈ list_files [(5,
      { id := 5, filename := "a.pdf", stored_path := "data/storage/5/source.pdf",
        dir := "data/storage/5", size := 3 })] ∧
    ({ id := 5, filename := "a.pdf", stored_path := "data/storage/5/source.pdf",
       size := 3 } : FileMetaView) ∈ listFilesEndpoint [(5,
      { id := 5, filename := "a.pdf", stored_path := "data/storage/5/source.pdf",
        dir := "data/storage/5", size := 3 })] ∧
    get_file_path [] [(5,
      { id := 5, filename := "a.pdf", stored_path := "data/storage/5/source.pdf",
        dir := "data/storage/5", size := 3 })] 5 = none :=
  c10_list_skips_revalidation [] [(5,
      { id := 5, filename := "a.pdf", stored_path := "data/storage/5/source.pdf",
        dir := "data/storage/5", size := 3 })] 5
    { id := 5, filename := "a.pdf", stored_path := "data/storage/5/source.pdf",
      dir := "data/storage/5", size := 3 }
    rfl rfl

theorem unpackId_lt (r : Nat) : unpackId r < 2 ^ 122 := by
  unfold unpackId
  omega

theorem recover_div74 (a b c : Nat) (_ha : a < 2 ^ 48) (_hb : b < 2 ^ 12) (hc : c < 2 ^ 62) :
    (a * 2 ^ 74 + b * 2 ^ 62 + c) / 2 ^ 74 = a := by omega

theorem recover_div62 (a b c : Nat) (_ha : a < 2 ^ 48) (hb : b < 2 ^ 12) (hc : c < 2 ^ 62) :
    (a * 2 ^ 74 + b * 2 ^ 62 + c) / 2 ^ 62 % 2 ^ 12 = b := by omega

theorem recover_mod62 (a b c : Nat) (_ha : a < 2 ^ 48) (_hb : b < 2 ^ 12) (hc : c < 2 ^ 62) :
    (a * 2 ^ 74 + b * 2 ^ 62 + c) % 2 ^ 62 = c := by omega

theorem uuid4_eq_assemble (r : Nat) : uuid4 r = assembleId (unpackId r) := by
  unfold uuid4 assembleId unpackId
  rw [recover_div74 (r % 2 ^ 128 / 2 ^ 80) (r % 2 ^ 128 / 2 ^ 64 % 2 ^ 12) (r % 2 ^ 128 % 2 ^ 62)
      (by omega) (by omega) (by omega),
    recover_div62 (r % 2 ^ 128 / 2 ^ 80) (r % 2 ^ 128 / 2 ^ 64 % 2 ^ 12) (r % 2 ^ 128 % 2 ^ 62)
      (by omega) (by omega) (by omega),
    recover_mod62 (r % 2 ^ 128 / 2 ^ 80) (r % 2 ^ 128 / 2 ^ 64 % 2 ^ 12) (r % 2 ^ 128 % 2 ^ 62)
      (by omega) (by omega) (by omega)]

theorem unpack_assemble (k : Nat) (h : k < 2 ^ 122) : unpackId (assembleId k) = k := by
  unfold unpackId assembleId
  have hA : k / 2 ^ 74 * 2 ^ 80 + 4 * 2 ^ 76 + k / 2 ^ 62 % 2 ^ 12 * 2 ^ 64 + 2 * 2 ^ 62 +
      k % 2 ^ 62 < 2 ^ 128 := by omega
  rw [Nat.mod_eq_of_lt hA]
  have h80 : (k / 2 ^ 74 * 2 ^ 80 + 4 * 2 ^ 76 + k / 2 ^ 62 % 2 ^ 12 * 2 ^ 64 + 2 * 2 ^ 62 +
      k % 2 ^ 62) / 2 ^ 80 = k / 2 ^ 74 := by omega
  have h64 : (k / 2 ^ 74 * 2 ^ 80 + 4 * 2 ^ 76 + k / 2 ^ 62 % 2 ^ 12 * 2 ^ 64 + 2 * 2 ^ 62 +
      k % 2 ^ 62) / 2 ^ 64 % 2 ^ 12 = k / 2 ^ 62 % 2 ^ 12 := by omega
  have h62 : (k / 2 ^ 74 * 2 ^ 80 + 4 * 2 ^ 76 + k / 2 ^ 62 % 2 ^ 12 * 2 ^ 64 + 2 * 2 ^ 62 +
      k % 2 ^ 62) % 2 ^ 62 = k % 2 ^ 62 := by omega
  rw [h80, h64, h62]
  omega

theorem packRaw_lt (k : Nat) (h : k < 2 ^ 122) : packRaw k < 2 ^ 128 := by
  unfold packRaw
  omega

theorem unpack_packRaw (k : Nat) (h : k < 2 ^ 122) : unpackId (packRaw k) = k := by
  unfold unpackId packRaw
  have hA : k / 2 ^ 74 * 2 ^ 80 + k / 2 ^ 62 % 2 ^ 12 * 2 ^ 64 + k % 2 ^ 62 < 2 ^ 128 := by
    omega
  rw [Nat.mod_eq_of_lt hA]
  have h80 : (k / 2 ^ 74 * 2 ^ 80 + k / 2 ^ 62 % 2 ^ 12 * 2 ^ 64 + k % 2 ^ 62) / 2 ^ 80 =
      k / 2 ^ 74 := by omega
  have h64 : (k / 2 ^ 74 * 2 ^ 80 + k / 2 ^ 62 % 2 ^ 12 * 2 ^ 64 + k % 2 ^ 62) / 2 ^ 64 %
      2 ^ 12 = k / 2 ^ 62 % 2 ^ 12 := by omega
  have h62 : (k / 2 ^ 74 * 2 ^ 80 + k / 2 ^ 62 % 2 ^ 12 * 2 ^ 64 + k % 2 ^ 62) % 2 ^ 62 =
      k % 2 ^ 62 := by omega
  rw [h80, h64, h62]
  omega

theorem uuid4_packRaw (k : Nat) (h : k < 2 ^ 122) : uuid4 (packRaw k) = assembleId k := by
  rw [uuid4_eq_assemble, unpack_packRaw k h]

theorem unpack_uuid4_packRaw (k : Nat) (h : k < 2 ^ 122) :
    unpackId (uuid4 (packRaw k)) = k := by
  rw [uuid4_packRaw k h, unpack_assemble k h]

theorem uuidSpace_card_le : uuidSpace.card ≤ 2 ^ 122 := by
  have hsub : uuidSpace ⊆ Finset.image assembleId (Finset.range (2 ^ 122)) := by
    intro n hn
    rw [uuidSpace, Finset.mem_image] at hn
    obtain ⟨r, _, hn⟩ := hn
    rw [Finset.mem_image]
    exact ⟨unpackId r, Finset.mem_range.mpr (unpackId_lt r), by rw [← hn, uuid4_eq_assemble]⟩
  calc uuidSpace.card ≤ (Finset.image assembleId (Finset.range (2 ^ 122))).card :=
        Finset.card_le_card hsub
    _ ≤ (Finset.range (2 ^ 122)).card := Finset.card_image_le
    _ = 2 ^ 122 := Finset.card_range _

theorem le_uuidSpace_card : 2 ^ 122 ≤ uuidSpace.card := by
  have hmaps : ∀ k ∈ Finset.range (2 ^ 122), uuid4 (packRaw k) ∈ uuidSpace := by
    intro k hk
    rw [uuidSpace, Finset.mem_image]
    exact ⟨packRaw k, Finset.mem_range.mpr (packRaw_lt k (Finset.mem_range.mp hk)), rfl⟩
  have hinj : Set.InjOn (fun k => uuid4 (packRaw k)) (Finset.range (2 ^ 122)) := by
    intro k1 h1 k2 h2 heq
    have hb1 : k1 < 2 ^ 122 := Finset.mem_range.mp (Finset.mem_coe.mp h1)
    have hb2 : k2 < 2 ^ 122 := Finset.mem_range.mp (Finset.mem_coe.mp h2)
    have h3 : unpackId (uuid4 (packRaw k1)) = unpackId (uuid4 (packRaw k2)) := by
      simp only at heq
      rw [heq]
    rw [unpack_uuid4_packRaw k1 hb1, unpack_uuid4_packRaw k2 hb2] at h3
    exact h3
  calc 2 ^ 122 = (Finset.range (2 ^ 122)).card := (Finset.card_range _).symm
    _ ≤ uuidSpace.card := Finset.card_le_card_of_injOn _ hmaps hinj

theorem uuid4_mem_uuidSpace (r : Nat) : uuid4 r ∈ uuidSpace := by
  rw [uuidSpace, Finset.mem_image]
  refine ⟨r % 2 ^ 128, Finset.mem_range.mpr (Nat.mod_lt _ (by norm_num)), ?_⟩
  unfold uuid4
  omega

/-- Claim C9 counterexample: identifiers are not drawn from a state space of
at least 2 ^ 128 equiprobable values — `uuid4` forces the four version bits
and the two variant bits, so its image over all 2 ^ 128 equiprobable raw
draws has cardinality at most 2 ^ 122 < 2 ^ 128. -/
theorem c9_randomness_counterexample : ¬ 2 ^ 128 ≤ uuidSpace.card := by
  have h := uuidSpace_card_le
  omega

/-- Claim C9 (amended): every identifier `save_upload` records is a value of
`uuid4`, whose state space `uuidSpace` has exactly 2 ^ 122 equiprobable
values — 122 bits of randomness, not 128. -/
theorem c9_randomness_amended :
    uuidSpace.card = 2 ^ 122 ∧
    (∀ idx : StorageIndex, ∀ r : Nat, ∀ filename : String, ∀ content : List Nat,
      ∀ meta : FileMeta, ∀ idx2 : StorageIndex,
      save_upload idx r filename content true = Except.ok (meta, idx2) →
      meta.id ∈ uuidSpace) := by
  refine ⟨Nat.le_antisymm uuidSpace_card_le le_uuidSpace_card, ?_⟩
  intro idx r filename content meta idx2 hs
  simp [save_upload] at hs
  rw [← hs.1]
  exact uuid4_mem_uuidSpace r

/-- Claim C9 witness: the amended theorem at a concrete upload. -/
theorem c9_randomness_amended_witness :
    ({ id := uuid4 0, filename := "a.pdf",
       stored_path := storageDirOf (uuid4 0) ++ "/source" ++ pathSuffix "a.pdf",
       dir := storageDirOf (uuid4 0), size := 1 } : FileMeta).id ∈ uuidSpace :=
  c9_randomness_amended.2 [] 0 "a.pdf" [7]
    { id := uuid4 0, filename := "a.pdf",
      stored_path := storageDirOf (uuid4 0) ++ "/source" ++ pathSuffix "a.pdf",
      dir := storageDirOf (uuid4 0), size := 1 }
    (dictInsert [] (uuid4 0)
      { id := uuid4 0, filename := "a.pdf",
        stored_path := storageDirOf (uuid4 0) ++ "/source" ++ pathSuffix "a.pdf",
        dir := storageDirOf (uuid4 0), size := 1 })
    rfl
